import Mathlib

/-!
Verification of the reflective-agent repository (reflective_agent.py,
reincarnation_manager.py) against its natural-language specification.

Strings are embedded as `List Char`; Python string primitives
(`in`, `find`, `rfind`, slicing, `strip`) are modelled over that type.
`json.loads` is a Python standard-library call; it is modelled as an
abstract parameter `loads : List Char → Option Rec` restricted to
top-level JSON objects, which is the shape every caller in the source
consumes.  Wall-clock timestamps and file I/O are not modelled: the
diary file is modelled as the list of its (structured) entries, and the
state snapshot as an `AgentState` value.
-/

/-- Convenience coercion from Lean string literals to the `List Char`
representation used throughout the development. -/
def str (s : String) : List Char := s.toList

/-- Python whitespace as used by `str.strip()` (ASCII subset). -/
def isPySpace (c : Char) : Bool :=
  c = ' ' || c = '\n' || c = '\t' || c = '\r' || c = '\x0b' || c = '\x0c'

/-- Model of Python `s.strip()`. -/
def pyStrip (s : List Char) : List Char :=
  ((s.dropWhile isPySpace).reverse.dropWhile isPySpace).reverse

/-- Model of the Python slice `s[a:b]` for natural indices. -/
def pySlice (s : List Char) (a b : Nat) : List Char :=
  (s.drop a).take (b - a)

/-- `occursAt s sub i` holds when `sub` occurs in `s` starting at index `i`. -/
def occursAt (s sub : List Char) (i : Nat) : Bool :=
  sub.isPrefixOf (s.drop i)

/-- Fuel-indexed upward scan used to model Python `s.find(sub, start)`. -/
def findAux (s sub : List Char) : Nat → Nat → Option Nat
  | _, 0 => none
  | start, fuel + 1 =>
    if occursAt s sub start then some start else findAux s sub (start + 1) fuel

/-- Model of Python `s.find(sub, start)`: the least occurrence index
that is `≥ start`, or `none` (Python returns `-1`). -/
def pyFind (s sub : List Char) (start : Nat) : Option Nat :=
  findAux s sub start (s.length + 1 - start)

/-- Downward scan used to model Python `s.rfind(sub)`. -/
def rfindAux (s sub : List Char) : Nat → Option Nat
  | 0 => if occursAt s sub 0 then some 0 else none
  | i + 1 => if occursAt s sub (i + 1) then some (i + 1) else rfindAux s sub i

/-- Model of Python `s.rfind(sub)`: the greatest occurrence index, or
`none` (Python returns `-1`). -/
def pyRfind (s sub : List Char) : Option Nat :=
  rfindAux s sub s.length

/-- Model of Python `sub in s`. -/
def pyContains (s sub : List Char) : Bool :=
  (pyFind s sub 0).isSome

/-- Model of Python `lst[-n:]` (the last `n` elements). -/
def lastN (n : Nat) (l : List α) : List α :=
  l.drop (l.length - n)

/-- Decimal rendering of a natural number, for the interpolated
`f"第 {n} 轮..."` summaries. -/
def natChars (n : Nat) : List Char :=
  Nat.toDigits 10 n

/-- JSON values as consumed by the agent code.  The source manipulates
the result of `json.loads` only through `dict.get`, truthiness tests and
re-serialisation, which this grammar covers. -/
inductive JVal where
  | jnull
  | jbool (b : Bool)
  | jnum (n : Int)
  | jstr (s : List Char)
  | jarr (elems : List JVal)

/-- A parsed JSON object: association list from keys to values
(Python `dict`, keys unique). -/
abbrev Rec := List (List Char × JVal)

/-- Python truthiness of a JSON value (`if v:`). -/
def truthy : JVal → Bool
  | .jnull => false
  | .jbool b => b
  | .jnum n => n != 0
  | .jstr s => !s.isEmpty
  | .jarr l => !l.isEmpty

/-- Model of Python `d.get(k, default)`. -/
def jget (rd : Rec) (k : List Char) (d : JVal) : JVal :=
  (List.lookup k rd).getD d

/-- The sentinel record returned by `extract_json_from_response` when
every fallback fails (source lines 209–215).  The spec renders the
Chinese field values in English: `thought="unable to parse response"`,
`reflection="parse error"`, `nextGoal="stop"`. -/
def defaultRecord : Rec :=
  [(str "thought", .jstr (str "无法解析响应")),
   (str "action", .jnull),
   (str "reflection", .jstr (str "解析错误")),
   (str "next_goal", .jstr (str "停止")),
   (str "continue", .jbool false)]

/-- The tagged fence marker searched for first (`"```json"`, length 7). -/
def jsonFence : List Char := str "```json"

/-- The generic fence marker (`"```"`, length 3). -/
def fence : List Char := str "```"

/-- First fallback of the parser (source lines 179–187): take the text
after the last `"```json"` up to the next `"```"` and parse it. -/
def jsonBlockAttempt (loads : List Char → Option Rec) (response : List Char) :
    Option Rec :=
  let start := (pyRfind response jsonFence).getD 0 + 7
  match pyFind response fence start with
  | some e => loads (pyStrip (pySlice response start e))
  | none => none

/-- Second fallback of the parser (source lines 188–200): take the text
after the last `"```"`, skip past the first newline (assumed language
tag) and parse up to the next `"```"`. -/
def genericBlockAttempt (loads : List Char → Option Rec) (response : List Char) :
    Option Rec :=
  let start := (pyRfind response fence).getD 0 + 3
  match pyFind response fence start with
  | some e =>
    match pyFind response (str "\n") start with
    | some fn => if fn < e then loads (pyStrip (pySlice response (fn + 1) e)) else none
    | none => none
  | none => none

/-- `extract_json_from_response` (source lines 176–215).  Each failed
attempt falls through to parsing the whole stripped response, and
finally to `defaultRecord`.  Every `json.loads` call in the source is
wrapped in a bare `try/except`, so the function is total. -/
def extract_json_from_response (loads : List Char → Option Rec)
    (response : List Char) : Rec :=
  if pyContains response jsonFence then
    ((jsonBlockAttempt loads response).or (loads (pyStrip response))).getD defaultRecord
  else if pyContains response fence then
    ((genericBlockAttempt loads response).or (loads (pyStrip response))).getD defaultRecord
  else
    (loads (pyStrip response)).getD defaultRecord

example : pyFind (str "ab```cd") fence 0 = some 2 := by decide
example : pyRfind (str "```a```") fence = some 4 := by decide
example : pyContains (str "abc") fence = false := by decide
example :
    extract_json_from_response (fun _ => none) (str "hello") = defaultRecord := by
  rfl

/-- The persisted agent state (source lines 77–86).  The Python value is
a JSON object; the engine only ever stores strings (or raw parsed JSON
values) in `last_thought` / `last_action` and list elements, so those
are `JVal` (with `jnull` standing for Python `None`). -/
structure AgentState where
  iteration : Nat
  start_time : List Char
  total_thoughts : Nat
  total_actions : Nat
  goals : List JVal
  achievements : List JVal
  last_thought : JVal
  last_action : JVal

/-- The zero-valued fresh state produced by `_load_state` when no
snapshot exists (source lines 77–86); `t` is the wall-clock start time. -/
def initial_state (t : List Char) : AgentState :=
  { iteration := 0, start_time := t, total_thoughts := 0, total_actions := 0,
    goals := [], achievements := [], last_thought := .jnull, last_action := .jnull }

/-- One diary entry.  `iteration` is the value stamped by `write_diary`
at write time; the wall-clock `timestamp` field is not modelled.  The
remaining payload is the association list `fields`. -/
structure DiaryEntry where
  phase : List Char
  iteration : Nat
  fields : List (List Char × JVal)

/-- `write_diary` (source lines 102–111): stamps the entry with the
engine's **current** iteration value and appends it to the diary.  (The
source also stamps a timestamp, not modelled, and an `ITERATION_START`
payload `iteration` key is overwritten with the same value.) -/
def write_diary (st : AgentState) (diary : List DiaryEntry)
    (phase : List Char) (fields : List (List Char × JVal)) : List DiaryEntry :=
  diary ++ [{ phase := phase, iteration := st.iteration, fields := fields }]

/-- Python `lst[-10:]` bounding applied after each append to `goals` and
`achievements` (source lines 306–307 and 313–314). -/
def cap10 (l : List JVal) : List JVal :=
  if l.length > 10 then l.drop (l.length - 10) else l

/-- Source lines 294–295: store `last_thought` when the key is present. -/
def apply_thought (rd : Rec) (st : AgentState) : AgentState :=
  match List.lookup (str "thought") rd with
  | some v => { st with last_thought := v }
  | none => st

/-- Source lines 298–300: when the `action` field is present and truthy,
store `last_action` and count the action. -/
def apply_action (rd : Rec) (st : AgentState) : AgentState :=
  match List.lookup (str "action") rd with
  | some v =>
    if truthy v then
      { st with last_action := v, total_actions := st.total_actions + 1 }
    else st
  | none => st

/-- Source lines 303–307: append a truthy `next_goal` to `goals`,
keeping only the last 10. -/
def apply_goal (rd : Rec) (st : AgentState) : AgentState :=
  match List.lookup (str "next_goal") rd with
  | some v => if truthy v then { st with goals := cap10 (st.goals ++ [v]) } else st
  | none => st

/-- Source lines 310–314: append a truthy `reflection` to
`achievements`, keeping only the last 10. -/
def apply_reflection (rd : Rec) (st : AgentState) : AgentState :=
  match List.lookup (str "reflection") rd with
  | some v =>
    if truthy v then { st with achievements := cap10 (st.achievements ++ [v]) } else st
  | none => st

/-- The full state update of a completed turn (source lines 289–314), in
source order: unconditional counter increments, then the four
field-conditional updates. -/
def update_state (st : AgentState) (rd : Rec) : AgentState :=
  apply_reflection rd (apply_goal rd (apply_action rd (apply_thought rd
    { st with iteration := st.iteration + 1,
              total_thoughts := st.total_thoughts + 1 })))

/-- Pieces of a prompt template: literal text and `\x7bname\x7d`
placeholders.  This is `str.format`'s parse of the template text; the
template engine itself is the Python standard library. -/
inductive TPiece where
  | lit (s : List Char)
  | hole (name : List Char)

/-- The placeholder names referenced by a template. -/
def holesOf : List TPiece → List (List Char)
  | [] => []
  | .lit _ :: rest => holesOf rest
  | .hole h :: rest => h :: holesOf rest

/-- Model of Python `template.format(**env)`: substitutes each
placeholder, raising `KeyError` (modelled as `.error` carrying the key)
at the first placeholder with no corresponding value. -/
def pyFormat : List TPiece → List (List Char × List Char) → Except (List Char) (List Char)
  | [], _ => .ok []
  | .lit s :: rest, env => (pyFormat rest env).map (fun t => s ++ t)
  | .hole h :: rest, env =>
    match List.lookup h env with
    | some v => (pyFormat rest env).map (fun t => v ++ t)
    | none => .error h

/-- The six keyword arguments `generate_prompt` always supplies to
`format` (source lines 165–172). -/
def promptKeys : List (List Char) :=
  [str "iteration", str "timestamp", str "state", str "life_name",
   str "my_space", str "recent_diary"]

/-- A template formats successfully exactly when every placeholder it
references is one of the six supplied keys. -/
def templateOk (t : List TPiece) : Bool :=
  (holesOf t).all (fun h => promptKeys.contains h)

/-- String-valued field lookup used by the diary digest (engine-written
entries hold strings in these fields). -/
def sget (fields : List (List Char × JVal)) (k : List Char) : List Char :=
  match List.lookup k fields with
  | some (.jstr s) => s
  | _ => []

/-- The recent-diary digest built by `generate_prompt` (source lines
145–159): a header, then per entry a phase/summary line, the thought
truncated to 200 characters when present, and the next goal when
present. -/
def diaryDigest (entries : List DiaryEntry) : List Char :=
  if entries.isEmpty then []
  else
    entries.foldl (fun acc e =>
      acc ++ str "### [" ++ e.phase ++ str "] " ++ sget e.fields (str "summary")
          ++ str "\n"
          ++ (if (sget e.fields (str "thought")).isEmpty then []
              else str "**思考**: " ++ (sget e.fields (str "thought")).take 200
                   ++ str "...\n")
          ++ (if (sget e.fields (str "next_goal")).isEmpty then []
              else str "**下一步**: " ++ sget e.fields (str "next_goal") ++ str "\n")
          ++ str "\n")
      (str "## 最近的思考日记\n\n")

/-- Outcome of the single backend call of a turn
(`self.ai_provider.generate(..., timeout=600)`, source line 246):
a response text, a timeout, or any other raised error. -/
inductive BackendResult where
  | ok (response : List Char)
  | timeout
  | err (msg : List Char)

/-- Per-turn environment that is constant for the turn: the abstract
`json.dumps` state serialiser, template, wall-clock strings, life
identity and the backend call's outcome. -/
structure TurnCtx where
  loads : List Char → Option Rec
  dumps : AgentState → List Char
  template : List TPiece
  timestamp : List Char
  lifeName : Option (List Char)
  mySpace : List Char
  backend : BackendResult

/-- The keyword-argument environment of the `format` call (source lines
165–172); `life_name` is `self.life_name or "unknown"`. -/
def promptEnv (ctx : TurnCtx) (st : AgentState) (recent : List DiaryEntry) :
    List (List Char × List Char) :=
  [(str "iteration", natChars st.iteration),
   (str "timestamp", ctx.timestamp),
   (str "state", ctx.dumps st),
   (str "life_name",
     match ctx.lifeName with
     | some s => if s.isEmpty then str "unknown" else s
     | none => str "unknown"),
   (str "my_space", ctx.mySpace),
   (str "recent_diary",
     if (diaryDigest recent).isEmpty then str "（暂无日记）" else diaryDigest recent)]

/-- `generate_prompt` (source lines 130–174): reads the last 10 diary
entries and renders the configured template, propagating a `KeyError`
for a placeholder with no value. -/
def generate_prompt (ctx : TurnCtx) (st : AgentState)
    (diary : List DiaryEntry) : Except (List Char) (List Char) :=
  pyFormat ctx.template (promptEnv ctx st (lastN 10 diary))

/-- How `run_iteration` finishes: a returned continue flag (`normal`,
the raw parsed value — the error paths return Python `False`), or an
exception escaping it (`raised`, carrying the missing template key —
`generate_prompt` is called **outside** its `try`, source line 230). -/
inductive IterOutcome where
  | normal (sc : JVal)
  | raised (missingKey : List Char)

/-- Result of one turn: the outcome plus the persisted state and diary
after the turn. -/
structure IterResult where
  outcome : IterOutcome
  state : AgentState
  diary : List DiaryEntry

/-- `run_iteration` (source lines 217–343), one loop turn:
`ITERATION_START`, prompt generation, `PROMPT_GENERATED`, the backend
call (an `ERROR` entry and `False` on failure), `RESPONSE_RECEIVED`,
parsing, the four thought/action/reflection/goal entries, the state
update, and `ITERATION_END`.  The prompt/response inspection files are
not modelled (the prompt is written then immediately re-read). -/
def run_iteration (ctx : TurnCtx) (st : AgentState)
    (diary : List DiaryEntry) : IterResult :=
  let d1 := write_diary st diary (str "ITERATION_START")
    [(str "summary", .jstr (str "第 " ++ natChars st.iteration ++ str " 轮开始"))]
  match generate_prompt ctx st d1 with
  | .error key => { outcome := .raised key, state := st, diary := d1 }
  | .ok prompt =>
    let d2 := write_diary st d1 (str "PROMPT_GENERATED")
      [(str "summary", .jstr (str "提示词已生成")),
       (str "prompt_length", .jnum (Int.ofNat prompt.length))]
    match ctx.backend with
    | .timeout =>
      { outcome := .normal (.jbool false), state := st,
        diary := write_diary st d2 (str "ERROR")
          [(str "summary", .jstr (str "执行超时"))] }
    | .err msg =>
      { outcome := .normal (.jbool false), state := st,
        diary := write_diary st d2 (str "ERROR")
          [(str "summary", .jstr (str "执行错误: " ++ msg))] }
    | .ok response =>
      let d3 := write_diary st d2 (str "RESPONSE_RECEIVED")
        [(str "summary", .jstr (str "收到 Claude 响应")),
         (str "response_length", .jnum (Int.ofNat response.length))]
      let rd := extract_json_from_response ctx.loads response
      let d4 := write_diary st d3 (str "THINKING")
        [(str "summary", .jstr (str "思考过程")),
         (str "thought", jget rd (str "thought") (.jstr [])),
         (str "next_goal", jget rd (str "next_goal") (.jstr []))]
      let d5 := write_diary st d4 (str "ACTION")
        [(str "summary", .jstr (str "执行行动")),
         (str "action", jget rd (str "action") (.jstr [])),
         (str "created_files", jget rd (str "created_files") (.jarr []))]
      let d6 := write_diary st d5 (str "REFLECTION")
        [(str "summary", .jstr (str "反思总结")),
         (str "reflection", jget rd (str "reflection") (.jstr [])),
         (str "emotional_state", jget rd (str "emotional_state") (.jstr (str "neutral")))]
      let d7 := write_diary st d6 (str "NEXT_GOAL")
        [(str "summary", .jstr (str "下一轮目标")),
         (str "next_goal", jget rd (str "next_goal") (.jstr []))]
      let st1 := update_state st rd
      let sc := jget rd (str "continue") (.jbool true)
      let d8 := write_diary st1 d7 (str "ITERATION_END")
        [(str "summary",
          .jstr (str "第 " ++ natChars (st1.iteration - 1) ++ str " 轮结束")),
         (str "will_continue", sc)]
      { outcome := .normal sc, state := st1, diary := d8 }

/-- Executing a sequence of turns back to back (threading state and
diary), used to state the iteration-counting property. -/
def runTurns : List TurnCtx → AgentState → List DiaryEntry →
    AgentState × List DiaryEntry
  | [], st, d => (st, d)
  | ctx :: rest, st, d =>
    let r := run_iteration ctx st d
    runTurns rest r.state r.diary

/-- A turn completes (reaches the state update) exactly when its
template renders and its backend call returns a response. -/
def turnCompleted (ctx : TurnCtx) : Bool :=
  templateOk ctx.template &&
    (match ctx.backend with | .ok _ => true | _ => false)

/-- One pass of the `while True` loop in `run` (source lines 361–390):
either `run_iteration` executes to its return, or a
`KeyboardInterrupt` surfaces during the pass (`partialEntries` are the
diary entries the cut-short pass had already appended). -/
inductive LoopEvent where
  | turn (ctx : TurnCtx)
  | interrupt (partialEntries : List DiaryEntry)

/-- Why the run loop exited. `scriptEnd` marks an exhausted event
script, i.e. a loop still running. -/
inductive StopCause where
  | agentStop
  | maxReached
  | interrupted
  | internalError
  | scriptEnd
deriving DecidableEq

/-- Python `if max_iterations and iteration_count >= max_iterations`
(source line 370): `None` and `0` are both falsy, so neither bounds the
loop. -/
def maxReachedCheck (maxIter : Option Nat) (count : Nat) : Bool :=
  match maxIter with
  | none => false
  | some m => if m = 0 then false else decide (count ≥ m)

/-- The `while True` loop of `run` (source lines 361–390): run a turn,
break without further diary writes when it asks to stop or the bound is
reached, append `SYSTEM_STOP` and break on `KeyboardInterrupt`, append
`ERROR` and break on any other exception escaping the turn. -/
def runLoop : List LoopEvent → Nat → Option Nat → AgentState →
    List DiaryEntry → AgentState × List DiaryEntry × StopCause
  | [], _, _, st, diary => (st, diary, .scriptEnd)
  | .interrupt pes :: _, _, _, st, diary =>
    (st, write_diary st (diary ++ pes) (str "SYSTEM_STOP")
      [(str "summary", .jstr (str "用户中断"))], .interrupted)
  | .turn ctx :: rest, count, maxIter, st, diary =>
    let r := run_iteration ctx st diary
    match r.outcome with
    | .raised key =>
      (r.state, write_diary r.state r.diary (str "ERROR")
        [(str "summary", .jstr (str "未预期错误: " ++ key))], .internalError)
    | .normal sc =>
      if truthy sc = false then (r.state, r.diary, .agentStop)
      else if maxReachedCheck maxIter (count + 1) then (r.state, r.diary, .maxReached)
      else runLoop rest (count + 1) maxIter r.state r.diary

/-- Payload of the `SYSTEM_START` entry (source lines 354–358). -/
def systemStartFields (maxIter : Option Nat) : List (List Char × JVal) :=
  [(str "summary", .jstr (str "系统启动")),
   (str "max_iterations",
     match maxIter with | none => .jnull | some m => .jnum (Int.ofNat m))]

/-- `run` (source lines 345–392): append `SYSTEM_START`, then loop. -/
def runAgent (events : List LoopEvent) (maxIter : Option Nat)
    (st : AgentState) (diary : List DiaryEntry) :
    AgentState × List DiaryEntry × StopCause :=
  runLoop events 0 maxIter st
    (write_diary st diary (str "SYSTEM_START") (systemStartFields maxIter))

/-- The life registry's durable pieces relevant to `delete_life`: the
index's name set and current-life field, and the set of on-disk life
directories. -/
structure RegistryState where
  lives : List (List Char)
  currentLife : Option (List Char)
  storage : List (List Char)
deriving DecidableEq

/-- The registry errors of `delete_life` (all raised as `ValueError` in
the source; the spec names them as below). -/
inductive RegErr where
  | confirmationRequired
  | notFound
  | currentLifeProtected
deriving DecidableEq

/-- `delete_life` (source lines 302–322): confirmation check, then index
membership, then current-life protection, in that order; only the
success path touches the storage and the index. -/
def delete_life (m : RegistryState) (name : List Char) (confirm : Bool) :
    RegistryState × Option RegErr :=
  if confirm = false then (m, some .confirmationRequired)
  else if m.lives.contains name = false then (m, some .notFound)
  else if m.currentLife = some name then (m, some .currentLifeProtected)
  else ({ lives := m.lives.erase name, currentLife := m.currentLife,
          storage := m.storage.erase name }, none)

/-- Observable states of the `my_space` current-life pointer. -/
inductive LinkState where
  | absent
  | symlinkTo (target : List Char)
  | realDir
deriving DecidableEq

/-- The sequence of pointer states a concurrent reader can observe
while `_set_current_life` runs (source lines 120–137), beginning with
the initial state: an existing symlink is `unlink`ed (a plain directory
is renamed aside) **before** the new symlink is created. -/
def setCurrentLifeLinkTrace (init : LinkState) (target : List Char) :
    List LinkState :=
  match init with
  | .symlinkTo t => [.symlinkTo t, .absent, .symlinkTo target]
  | .realDir => [.realDir, .absent, .symlinkTo target]
  | .absent => [.absent, .symlinkTo target]

/-- Whether a pointer state resolves to a life directory at all. -/
def resolvesToSome : LinkState → Bool
  | .absent => false
  | _ => true

/-! Facts about the Python `find`/`rfind` models. -/

lemma occursAt_false_of_ge (s sub : List Char) (hsub : sub ≠ []) (j : Nat)
    (hj : s.length ≤ j) : occursAt s sub j = false := by
  unfold occursAt
  rw [List.drop_eq_nil_of_le hj]
  cases sub with
  | nil => exact absurd rfl hsub
  | cons a as => rfl

lemma findAux_eq_none_of (s sub : List Char) (start fuel : Nat)
    (h : ∀ j, start ≤ j → occursAt s sub j = false) :
    findAux s sub start fuel = none := by
  induction fuel generalizing start with
  | zero => rfl
  | succ n ih =>
    unfold findAux
    rw [h start (Nat.le_refl start)]
    exact ih (start + 1) (fun j hj => h j (Nat.le_of_succ_le hj))

lemma rfindAux_max (s sub : List Char) (n i : Nat)
    (h : rfindAux s sub n = some i) :
    ∀ j, j ≤ n → occursAt s sub j = true → j ≤ i := by
  induction n with
  | zero =>
    intro j hj _
    exact hj.trans (Nat.zero_le i)
  | succ n ih =>
    intro j hj hocc
    unfold rfindAux at h
    by_cases hc : occursAt s sub (n + 1) = true
    · rw [if_pos hc] at h
      cases h
      exact hj
    · rw [if_neg hc] at h
      rcases Nat.lt_or_ge j (n + 1) with hlt | hge
      · exact ih h j (Nat.lt_succ_iff.mp hlt) hocc
      · have : j = n + 1 := Nat.le_antisymm hj hge
        rw [this] at hocc
        exact absurd hocc hc

lemma rfindAux_isSome_of (s sub : List Char) (n j : Nat)
    (hocc : occursAt s sub j = true) (hj : j ≤ n) :
    (rfindAux s sub n).isSome := by
  induction n with
  | zero =>
    have : j = 0 := Nat.le_zero.mp hj
    rw [this] at hocc
    unfold rfindAux
    rw [if_pos hocc]
    rfl
  | succ n ih =>
    unfold rfindAux
    by_cases hc : occursAt s sub (n + 1) = true
    · rw [if_pos hc]; rfl
    · rw [if_neg hc]
      rcases Nat.lt_or_ge j (n + 1) with hlt | hge
      · exact ih (Nat.lt_succ_iff.mp hlt)
      · have : j = n + 1 := Nat.le_antisymm hj hge
        rw [this] at hocc
        exact absurd hocc hc

lemma rfindAux_none (s sub : List Char) (n : Nat)
    (h : rfindAux s sub n = none) :
    ∀ j, j ≤ n → occursAt s sub j = false := by
  intro j hj
  by_contra hne
  have hocc : occursAt s sub j = true := by
    cases hval : occursAt s sub j with
    | false => exact absurd hval hne
    | true => rfl
  have := rfindAux_isSome_of s sub n j hocc hj
  rw [h] at this
  exact absurd this (by simp)

lemma occursAt_lt_length (s sub : List Char) (hsub : sub ≠ []) (j : Nat)
    (hocc : occursAt s sub j = true) : j < s.length := by
  by_contra hge
  have := occursAt_false_of_ge s sub hsub j (Nat.le_of_not_lt hge)
  rw [this] at hocc
  exact absurd hocc (by simp)

lemma pyFind_after_rfind (s sub : List Char) (hsub : sub ≠ []) (i t : Nat)
    (h : pyRfind s sub = some i) (ht : i < t) :
    pyFind s sub t = none := by
  apply findAux_eq_none_of
  intro j hj
  by_contra hne
  have hocc : occursAt s sub j = true := by
    cases hval : occursAt s sub j with
    | false => exact absurd hval hne
    | true => rfl
  have hlt := occursAt_lt_length s sub hsub j hocc
  have hle : j ≤ i := rfindAux_max s sub s.length i h j (Nat.le_of_lt hlt) hocc
  exact absurd (Nat.lt_of_lt_of_le (Nat.lt_of_le_of_lt hle ht) hj)
    (Nat.lt_irrefl j)

/-- The generic-fence fallback can never fire: its search window for the
closing fence starts three characters past the **last** occurrence of
`"```"` in the text, and no further occurrence can exist there.  The
branch at source lines 188–200 is unreachable dead code. -/
lemma genericBlockAttempt_eq_none (loads : List Char → Option Rec)
    (response : List Char) :
    genericBlockAttempt loads response = none := by
  unfold genericBlockAttempt
  have hfence : fence ≠ [] := by decide
  cases hrf : pyRfind response fence with
  | none =>
    have hnone : pyFind response fence (0 + 3) = none := by
      apply findAux_eq_none_of
      intro j _
      by_cases hj : j ≤ response.length
      · exact rfindAux_none response fence response.length hrf j hj
      · exact occursAt_false_of_ge response fence hfence j (Nat.le_of_not_le hj)
    simp only [hrf, Option.getD_none, hnone]
  | some i =>
    have hnone : pyFind response fence (i + 3) = none :=
      pyFind_after_rfind response fence hfence i (i + 3) hrf
        (Nat.lt_add_of_pos_right (by decide))
    simp only [hrf, Option.getD_some, hnone]

lemma jsonBlockAttempt_some (loads : List Char → Option Rec)
    (response : List Char) (r : Rec)
    (h : jsonBlockAttempt loads response = some r) :
    ∃ s, loads s = some r := by
  simp only [jsonBlockAttempt] at h
  rcases hf : pyFind response fence ((pyRfind response jsonFence).getD 0 + 7) with
    _ | e
  · simp only [hf] at h
    exact absurd h (by simp)
  · simp only [hf] at h
    exact ⟨_, h⟩

/-- Concrete response for the dead-branch evidence: a single generic
fenced block (language tag `py`) whose body is a JSON object. -/
def c8input : List Char := str "```py\n\x7b\"thought\": \"t\"\x7d\n```"

/-- The body of that block after skipping its first line — what the
claim says the parser extracts and parses. -/
def c8content : List Char := str "\x7b\"thought\": \"t\"\x7d"

/-- The record a JSON parser yields on that body. -/
def c8record : Rec := [(str "thought", .jstr (str "t"))]

/-- A `json.loads` model that succeeds on exactly that body. -/
def c8loads (s : List Char) : Option Rec :=
  if s = c8content then some c8record else none

/-- C8, code_bug evidence: the generic-fence fallback is dead code.  On
a response with no tagged block and one generic fenced block whose body
is valid JSON, the source computes `start = rfind("``" ++ "`") + 3` —
three characters past the **last** fence — and then looks for a closing
fence after it, which cannot exist; so nothing is extracted from the
block (last conjunct: this holds for every input and every parser) and
the parser falls through to the sentinel, even though the parser would
succeed on the block body the claim designates. -/
theorem C8_generic_fenced_block_never_parsed :
    extract_json_from_response c8loads c8input = defaultRecord
    ∧ pyContains c8input jsonFence = false
    ∧ pyContains c8input fence = true
    ∧ c8loads c8content = some c8record
    ∧ ∀ (loads : List Char → Option Rec) (response : List Char),
        genericBlockAttempt loads response = none :=
  ⟨by rfl, by rfl, by rfl, by rfl, genericBlockAttempt_eq_none⟩

/-- C1: the response parser is total (it is a function into `Rec`: every
`json.loads` exception in the source is swallowed), and whenever every
fallback parse fails it returns exactly the sentinel record; moreover on
any input the result is either the sentinel or a value produced by the
JSON parser (so a record is always returned). -/
theorem C1_parser_total_and_sentinel :
    ∀ (loads : List Char → Option Rec) (response : List Char),
      ((∀ s, loads s = none) →
        extract_json_from_response loads response = defaultRecord)
      ∧ (extract_json_from_response loads response = defaultRecord
         ∨ ∃ s, loads s = some (extract_json_from_response loads response)) := by
  intro loads response
  constructor
  · intro h
    have hj : jsonBlockAttempt loads response = none := by
      cases hc : jsonBlockAttempt loads response with
      | none => rfl
      | some r =>
        obtain ⟨s, hs⟩ := jsonBlockAttempt_some loads response r hc
        rw [h s] at hs
        exact absurd hs (by simp)
    by_cases h1 : pyContains response jsonFence = true
    · simp [extract_json_from_response, h1, hj, h]
    · by_cases h2 : pyContains response fence = true
      · simp [extract_json_from_response, h1, h2, genericBlockAttempt_eq_none, h]
      · simp [extract_json_from_response, h1, h2, h]
  · by_cases h1 : pyContains response jsonFence = true
    · cases hc : jsonBlockAttempt loads response with
      | some r =>
        obtain ⟨s, hs⟩ := jsonBlockAttempt_some loads response r hc
        right
        refine ⟨s, ?_⟩
        have hv : extract_json_from_response loads response = r := by
          simp [extract_json_from_response, h1, hc]
        rw [hv]
        exact hs
      | none =>
        cases hl : loads (pyStrip response) with
        | some r =>
          right
          refine ⟨pyStrip response, ?_⟩
          have hv : extract_json_from_response loads response = r := by
            simp [extract_json_from_response, h1, hc, hl]
          rw [hv]
          exact hl
        | none =>
          left
          simp [extract_json_from_response, h1, hc, hl]
    · cases hl : loads (pyStrip response) with
      | some r =>
        right
        refine ⟨pyStrip response, ?_⟩
        have hv : extract_json_from_response loads response = r := by
          by_cases h2 : pyContains response fence = true
          · simp [extract_json_from_response, h1, h2,
              genericBlockAttempt_eq_none, hl]
          · simp [extract_json_from_response, h1, h2, hl]
        rw [hv]
        exact hl
      | none =>
        left
        by_cases h2 : pyContains response fence = true
        · simp [extract_json_from_response, h1, h2,
            genericBlockAttempt_eq_none, hl]
        · simp [extract_json_from_response, h1, h2, hl]

/-- Witness for C1 at a concrete failing parser and input. -/
theorem C1_witness :
    (∀ s, (fun (_ : List Char) => (none : Option Rec)) s = none)
    ∧ extract_json_from_response (fun _ => none) (str "no json here")
        = defaultRecord :=
  ⟨fun _ => rfl,
   (C1_parser_total_and_sentinel (fun _ => none) (str "no json here")).1
     (fun _ => rfl)⟩

/-! State-update lemmas. -/

/-- The condition under which the source counts an action (source line
298): the `action` key is present **and** its value is truthy; for
string values truthiness is exactly non-emptiness. -/
def actionCounted (rd : Rec) : Bool :=
  match List.lookup (str "action") rd with
  | some v => truthy v
  | none => false

@[simp] lemma apply_thought_iteration (rd : Rec) (st : AgentState) :
    (apply_thought rd st).iteration = st.iteration := by
  unfold apply_thought; split <;> rfl

@[simp] lemma apply_thought_total_thoughts (rd : Rec) (st : AgentState) :
    (apply_thought rd st).total_thoughts = st.total_thoughts := by
  unfold apply_thought; split <;> rfl

@[simp] lemma apply_thought_total_actions (rd : Rec) (st : AgentState) :
    (apply_thought rd st).total_actions = st.total_actions := by
  unfold apply_thought; split <;> rfl

@[simp] lemma apply_thought_goals (rd : Rec) (st : AgentState) :
    (apply_thought rd st).goals = st.goals := by
  unfold apply_thought; split <;> rfl

@[simp] lemma apply_thought_achievements (rd : Rec) (st : AgentState) :
    (apply_thought rd st).achievements = st.achievements := by
  unfold apply_thought; split <;> rfl

@[simp] lemma apply_action_iteration (rd : Rec) (st : AgentState) :
    (apply_action rd st).iteration = st.iteration := by
  unfold apply_action; split
  · split <;> rfl
  · rfl

@[simp] lemma apply_action_total_thoughts (rd : Rec) (st : AgentState) :
    (apply_action rd st).total_thoughts = st.total_thoughts := by
  unfold apply_action; split
  · split <;> rfl
  · rfl

@[simp] lemma apply_action_goals (rd : Rec) (st : AgentState) :
    (apply_action rd st).goals = st.goals := by
  unfold apply_action; split
  · split <;> rfl
  · rfl

@[simp] lemma apply_action_achievements (rd : Rec) (st : AgentState) :
    (apply_action rd st).achievements = st.achievements := by
  unfold apply_action; split
  · split <;> rfl
  · rfl

lemma apply_action_total_actions (rd : Rec) (st : AgentState) :
    (apply_action rd st).total_actions =
      st.total_actions + (if actionCounted rd = true then 1 else 0) := by
  unfold apply_action actionCounted
  cases hl : List.lookup (str "action") rd with
  | none => simp
  | some v =>
    by_cases ht : truthy v = true
    · simp [ht]
    · simp [ht]

@[simp] lemma apply_goal_iteration (rd : Rec) (st : AgentState) :
    (apply_goal rd st).iteration = st.iteration := by
  unfold apply_goal; split
  · split <;> rfl
  · rfl

@[simp] lemma apply_goal_total_thoughts (rd : Rec) (st : AgentState) :
    (apply_goal rd st).total_thoughts = st.total_thoughts := by
  unfold apply_goal; split
  · split <;> rfl
  · rfl

@[simp] lemma apply_goal_total_actions (rd : Rec) (st : AgentState) :
    (apply_goal rd st).total_actions = st.total_actions := by
  unfold apply_goal; split
  · split <;> rfl
  · rfl

@[simp] lemma apply_goal_achievements (rd : Rec) (st : AgentState) :
    (apply_goal rd st).achievements = st.achievements := by
  unfold apply_goal; split
  · split <;> rfl
  · rfl

@[simp] lemma apply_reflection_iteration (rd : Rec) (st : AgentState) :
    (apply_reflection rd st).iteration = st.iteration := by
  unfold apply_reflection; split
  · split <;> rfl
  · rfl

@[simp] lemma apply_reflection_total_thoughts (rd : Rec) (st : AgentState) :
    (apply_reflection rd st).total_thoughts = st.total_thoughts := by
  unfold apply_reflection; split
  · split <;> rfl
  · rfl

@[simp] lemma apply_reflection_total_actions (rd : Rec) (st : AgentState) :
    (apply_reflection rd st).total_actions = st.total_actions := by
  unfold apply_reflection; split
  · split <;> rfl
  · rfl

@[simp] lemma apply_reflection_goals (rd : Rec) (st : AgentState) :
    (apply_reflection rd st).goals = st.goals := by
  unfold apply_reflection; split
  · split <;> rfl
  · rfl

lemma update_state_iteration (st : AgentState) (rd : Rec) :
    (update_state st rd).iteration = st.iteration + 1 := by
  simp [update_state]

lemma update_state_total_thoughts (st : AgentState) (rd : Rec) :
    (update_state st rd).total_thoughts = st.total_thoughts + 1 := by
  simp [update_state]

lemma update_state_total_actions (st : AgentState) (rd : Rec) :
    (update_state st rd).total_actions =
      st.total_actions + (if actionCounted rd = true then 1 else 0) := by
  simp [update_state, apply_action_total_actions]

lemma cap10_length (l : List JVal) : (cap10 l).length = min l.length 10 := by
  unfold cap10
  split
  · rename_i h
    rw [List.length_drop]
    omega
  · rename_i h
    omega

lemma cap10_suffix (l : List JVal) : (cap10 l).IsSuffix l := by
  unfold cap10
  split
  · exact List.drop_suffix _ _
  · exact List.suffix_refl l

lemma apply_goal_goals_append (rd : Rec) (st : AgentState) (v : JVal)
    (h : List.lookup (str "next_goal") rd = some v) (ht : truthy v = true) :
    (apply_goal rd st).goals = cap10 (st.goals ++ [v]) := by
  simp [apply_goal, h, ht]

lemma apply_goal_goals_id (rd : Rec) (st : AgentState)
    (h : ∀ v, List.lookup (str "next_goal") rd = some v → truthy v = false) :
    (apply_goal rd st).goals = st.goals := by
  unfold apply_goal
  cases hl : List.lookup (str "next_goal") rd with
  | none => rfl
  | some v => simp [h v hl]

lemma apply_reflection_achievements_append (rd : Rec) (st : AgentState) (v : JVal)
    (h : List.lookup (str "reflection") rd = some v) (ht : truthy v = true) :
    (apply_reflection rd st).achievements = cap10 (st.achievements ++ [v]) := by
  simp [apply_reflection, h, ht]

lemma apply_reflection_achievements_id (rd : Rec) (st : AgentState)
    (h : ∀ v, List.lookup (str "reflection") rd = some v → truthy v = false) :
    (apply_reflection rd st).achievements = st.achievements := by
  unfold apply_reflection
  cases hl : List.lookup (str "reflection") rd with
  | none => rfl
  | some v => simp [h v hl]

/-! Prompt-construction lemmas: a template renders exactly when each of
its placeholders is among the six supplied keys. -/

lemma lookup_isSome_keys (env : List (List Char × List Char)) (k : List Char) :
    (List.lookup k env).isSome = (env.map Prod.fst).contains k := by
  induction env with
  | nil => rfl
  | cons p rest ih =>
    cases p with
    | mk a b =>
      by_cases h : k == a
      · simp [List.lookup, h]
      · simp only [List.lookup, h, List.map, List.contains_cons]
        rw [ih]
        simp [h]

lemma promptEnv_keys (ctx : TurnCtx) (st : AgentState)
    (recent : List DiaryEntry) :
    (promptEnv ctx st recent).map Prod.fst = promptKeys := rfl

lemma pyFormat_isOk_iff (t : List TPiece) (env : List (List Char × List Char)) :
    (∃ s, pyFormat t env = .ok s) ↔
      ∀ k ∈ holesOf t, (List.lookup k env).isSome = true := by
  induction t with
  | nil => simp [pyFormat, holesOf]
  | cons piece rest ih =>
    cases piece with
    | lit s =>
      cases hrest : pyFormat rest env with
      | ok r =>
        simp only [pyFormat, hrest, Except.map, holesOf]
        constructor
        · intro _
          exact (ih.mp ⟨r, hrest⟩)
        · intro _
          exact ⟨s ++ r, rfl⟩
      | error e =>
        simp only [pyFormat, hrest, Except.map, holesOf]
        constructor
        · intro ⟨s2, hs2⟩
          exact absurd hs2 (by simp)
        · intro h
          obtain ⟨r, hr⟩ := ih.mpr h
          rw [hr] at hrest
          exact absurd hrest (by simp)
    | hole h =>
      cases hl : List.lookup h env with
      | none =>
        simp only [pyFormat, hl, holesOf]
        constructor
        · intro ⟨s2, hs2⟩
          exact absurd hs2 (by simp)
        · intro hall
          have := hall h (by simp)
          rw [hl] at this
          exact absurd this (by simp)
      | some v =>
        cases hrest : pyFormat rest env with
        | ok r =>
          simp only [pyFormat, hl, hrest, Except.map, holesOf]
          constructor
          · intro _ k hk
            rcases List.mem_cons.mp hk with heq | hmem
            · rw [heq, hl]; rfl
            · exact ih.mp ⟨r, hrest⟩ k hmem
          · intro _
            exact ⟨v ++ r, rfl⟩
        | error e =>
          simp only [pyFormat, hl, hrest, Except.map, holesOf]
          constructor
          · intro ⟨s2, hs2⟩
            exact absurd hs2 (by simp)
          · intro hall
            obtain ⟨r, hr⟩ := ih.mpr (fun k hk => hall k (List.mem_cons_of_mem _ hk))
            rw [hr] at hrest
            exact absurd hrest (by simp)

lemma generate_prompt_isOk_iff (ctx : TurnCtx) (st : AgentState)
    (diary : List DiaryEntry) :
    (∃ p, generate_prompt ctx st diary = .ok p) ↔
      templateOk ctx.template = true := by
  unfold generate_prompt templateOk
  rw [pyFormat_isOk_iff]
  rw [List.all_eq_true]
  constructor
  · intro h k hk
    have := h k hk
    rw [lookup_isSome_keys, promptEnv_keys] at this
    exact this
  · intro h k hk
    rw [lookup_isSome_keys, promptEnv_keys]
    exact h k hk

lemma generate_prompt_ok (ctx : TurnCtx) (st : AgentState)
    (diary : List DiaryEntry) (h : templateOk ctx.template = true) :
    ∃ p, generate_prompt ctx st diary = .ok p :=
  (generate_prompt_isOk_iff ctx st diary).mpr h

lemma templateOk_false_of_err (ctx : TurnCtx) (st : AgentState)
    (diary : List DiaryEntry) (k : List Char)
    (h : generate_prompt ctx st diary = .error k) :
    templateOk ctx.template = false := by
  cases htp : templateOk ctx.template with
  | false => rfl
  | true =>
    obtain ⟨p, hp⟩ := generate_prompt_ok ctx st diary htp
    rw [h] at hp
    exact absurd hp (by simp)

/-! Case analysis of `run_iteration`. -/

lemma run_iteration_raised_case (ctx : TurnCtx) (st : AgentState)
    (diary : List DiaryEntry) (h : templateOk ctx.template = false) :
    ∃ k, run_iteration ctx st diary =
      { outcome := .raised k, state := st,
        diary := diary ++ [⟨str "ITERATION_START", st.iteration,
          [(str "summary",
            .jstr (str "第 " ++ natChars st.iteration ++ str " 轮开始"))]⟩] } := by
  simp only [run_iteration]
  cases hgp : generate_prompt ctx st (write_diary st diary (str "ITERATION_START")
      [(str "summary",
        .jstr (str "第 " ++ natChars st.iteration ++ str " 轮开始"))]) with
  | error k => exact ⟨k, by simp [write_diary]⟩
  | ok p =>
    have := (generate_prompt_isOk_iff ctx st _).mp ⟨p, hgp⟩
    rw [this] at h
    exact absurd h (by simp)

lemma run_iteration_backend_fail (ctx : TurnCtx) (st : AgentState)
    (diary : List DiaryEntry) (h : templateOk ctx.template = true)
    (hb : ctx.backend = .timeout ∨ ∃ m, ctx.backend = .err m) :
    ∃ es, run_iteration ctx st diary =
        { outcome := .normal (.jbool false), state := st, diary := diary ++ es }
      ∧ es.map DiaryEntry.phase =
          [str "ITERATION_START", str "PROMPT_GENERATED", str "ERROR"]
      ∧ es.map DiaryEntry.iteration = [st.iteration, st.iteration, st.iteration] := by
  obtain ⟨p, hp⟩ := generate_prompt_ok ctx st
    (write_diary st diary (str "ITERATION_START")
      [(str "summary",
        .jstr (str "第 " ++ natChars st.iteration ++ str " 轮开始"))]) h
  simp only [run_iteration]
  rw [hp]
  rcases hb with hb | ⟨m, hb⟩ <;> rw [hb]
  · exact ⟨[⟨str "ITERATION_START", st.iteration,
        [(str "summary",
          .jstr (str "第 " ++ natChars st.iteration ++ str " 轮开始"))]⟩,
      ⟨str "PROMPT_GENERATED", st.iteration,
        [(str "summary", .jstr (str "提示词已生成")),
         (str "prompt_length", .jnum (Int.ofNat p.length))]⟩,
      ⟨str "ERROR", st.iteration,
        [(str "summary", .jstr (str "执行超时"))]⟩],
      by simp [write_diary], by simp, by simp⟩
  · exact ⟨[⟨str "ITERATION_START", st.iteration,
        [(str "summary",
          .jstr (str "第 " ++ natChars st.iteration ++ str " 轮开始"))]⟩,
      ⟨str "PROMPT_GENERATED", st.iteration,
        [(str "summary", .jstr (str "提示词已生成")),
         (str "prompt_length", .jnum (Int.ofNat p.length))]⟩,
      ⟨str "ERROR", st.iteration,
        [(str "summary", .jstr (str "执行错误: " ++ m))]⟩],
      by simp [write_diary], by simp, by simp⟩

lemma run_iteration_ok_case (ctx : TurnCtx) (st : AgentState)
    (diary : List DiaryEntry) (resp : List Char)
    (h : templateOk ctx.template = true) (hb : ctx.backend = .ok resp) :
    ∃ es, run_iteration ctx st diary =
        { outcome := .normal (jget (extract_json_from_response ctx.loads resp)
            (str "continue") (.jbool true)),
          state := update_state st (extract_json_from_response ctx.loads resp),
          diary := diary ++ es }
      ∧ es.map DiaryEntry.phase =
          [str "ITERATION_START", str "PROMPT_GENERATED", str "RESPONSE_RECEIVED",
           str "THINKING", str "ACTION", str "REFLECTION", str "NEXT_GOAL",
           str "ITERATION_END"]
      ∧ es.map DiaryEntry.iteration =
          [st.iteration, st.iteration, st.iteration, st.iteration, st.iteration,
           st.iteration, st.iteration, st.iteration + 1]
      ∧ es.getLast?.map DiaryEntry.fields =
          some [(str "summary",
                  .jstr (str "第 " ++ natChars st.iteration ++ str " 轮结束")),
                (str "will_continue",
                  jget (extract_json_from_response ctx.loads resp)
                    (str "continue") (.jbool true))] := by
  obtain ⟨p, hp⟩ := generate_prompt_ok ctx st
    (write_diary st diary (str "ITERATION_START")
      [(str "summary",
        .jstr (str "第 " ++ natChars st.iteration ++ str " 轮开始"))]) h
  simp only [run_iteration]
  rw [hp, hb]
  refine ⟨[⟨str "ITERATION_START", st.iteration,
      [(str "summary",
        .jstr (str "第 " ++ natChars st.iteration ++ str " 轮开始"))]⟩,
    ⟨str "PROMPT_GENERATED", st.iteration,
      [(str "summary", .jstr (str "提示词已生成")),
       (str "prompt_length", .jnum (Int.ofNat p.length))]⟩,
    ⟨str "RESPONSE_RECEIVED", st.iteration,
      [(str "summary", .jstr (str "收到 Claude 响应")),
       (str "response_length", .jnum (Int.ofNat resp.length))]⟩,
    ⟨str "THINKING", st.iteration,
      [(str "summary", .jstr (str "思考过程")),
       (str "thought", jget (extract_json_from_response ctx.loads resp)
          (str "thought") (.jstr [])),
       (str "next_goal", jget (extract_json_from_response ctx.loads resp)
          (str "next_goal") (.jstr []))]⟩,
    ⟨str "ACTION", st.iteration,
      [(str "summary", .jstr (str "执行行动")),
       (str "action", jget (extract_json_from_response ctx.loads resp)
          (str "action") (.jstr [])),
       (str "created_files", jget (extract_json_from_response ctx.loads resp)
          (str "created_files") (.jarr []))]⟩,
    ⟨str "REFLECTION", st.iteration,
      [(str "summary", .jstr (str "反思总结")),
       (str "reflection", jget (extract_json_from_response ctx.loads resp)
          (str "reflection") (.jstr [])),
       (str "emotional_state", jget (extract_json_from_response ctx.loads resp)
          (str "emotional_state") (.jstr (str "neutral")))]⟩,
    ⟨str "NEXT_GOAL", st.iteration,
      [(str "summary", .jstr (str "下一轮目标")),
       (str "next_goal", jget (extract_json_from_response ctx.loads resp)
          (str "next_goal") (.jstr []))]⟩,
    ⟨str "ITERATION_END", st.iteration + 1,
      [(str "summary",
        .jstr (str "第 " ++ natChars st.iteration ++ str " 轮结束")),
       (str "will_continue", jget (extract_json_from_response ctx.loads resp)
          (str "continue") (.jbool true))]⟩], ?_, by simp, by simp, by simp⟩
  simp [write_diary, update_state_iteration]

lemma run_iteration_state_iteration (ctx : TurnCtx) (st : AgentState)
    (diary : List DiaryEntry) :
    (run_iteration ctx st diary).state.iteration =
      st.iteration + (if turnCompleted ctx = true then 1 else 0) := by
  by_cases htp : templateOk ctx.template = true
  · cases hbk : ctx.backend with
    | ok resp =>
      obtain ⟨es, heq, _, _, _⟩ := run_iteration_ok_case ctx st diary resp htp hbk
      rw [heq]
      simp [update_state_iteration, turnCompleted, htp, hbk]
    | timeout =>
      obtain ⟨es, heq, _, _⟩ :=
        run_iteration_backend_fail ctx st diary htp (Or.inl hbk)
      rw [heq]
      simp [turnCompleted, htp, hbk]
    | err m =>
      obtain ⟨es, heq, _, _⟩ :=
        run_iteration_backend_fail ctx st diary htp (Or.inr ⟨m, hbk⟩)
      rw [heq]
      simp [turnCompleted, htp, hbk]
  · have h2 : templateOk ctx.template = false := by simpa using htp
    obtain ⟨k, heq⟩ := run_iteration_raised_case ctx st diary h2
    rw [heq]
    simp [turnCompleted, h2]

lemma runTurns_iteration (ctxs : List TurnCtx) :
    ∀ (st : AgentState) (d : List DiaryEntry),
      (runTurns ctxs st d).1.iteration =
        st.iteration + ctxs.countP turnCompleted := by
  induction ctxs with
  | nil =>
    intro st d
    simp [runTurns]
  | cons c rest ih =>
    intro st d
    simp only [runTurns]
    rw [ih, run_iteration_state_iteration, List.countP_cons]
    by_cases hc : turnCompleted c = true <;> simp [hc] <;> omega

/-- C3: a completed turn increments `iteration` and `total_thoughts` by
exactly one, and increments `total_actions` exactly when the parsed
`action` field is present and truthy — for a string-valued (or null, or
absent) `action` field that is exactly "present and non-empty"; and over
any sequence of turns the final `iteration` is the initial one plus the
number of turns that completed (template rendered and backend
answered), i.e. the number of turns that did not fail. -/
theorem C3_state_update_counters :
    (∀ (rd : Rec) (st : AgentState),
      (update_state st rd).iteration = st.iteration + 1
      ∧ (update_state st rd).total_thoughts = st.total_thoughts + 1
      ∧ ((update_state st rd).total_actions = st.total_actions + 1 ↔
          actionCounted rd = true)
      ∧ (List.lookup (str "action") rd = none →
          (update_state st rd).total_actions = st.total_actions)
      ∧ (List.lookup (str "action") rd = some .jnull →
          (update_state st rd).total_actions = st.total_actions)
      ∧ (∀ s, List.lookup (str "action") rd = some (.jstr s) →
          ((update_state st rd).total_actions = st.total_actions + 1 ↔ s ≠ [])))
    ∧ ∀ (ctxs : List TurnCtx) (st : AgentState) (d : List DiaryEntry),
        (runTurns ctxs st d).1.iteration =
          st.iteration + ctxs.countP turnCompleted := by
  constructor
  · intro rd st
    refine ⟨update_state_iteration st rd, update_state_total_thoughts st rd,
      ?_, ?_, ?_, ?_⟩
    · rw [update_state_total_actions]
      by_cases hc : actionCounted rd = true <;> simp [hc] <;> omega
    · intro h
      rw [update_state_total_actions]
      simp [actionCounted, h]
    · intro h
      rw [update_state_total_actions]
      simp [actionCounted, h, truthy]
    · intro s h
      rw [update_state_total_actions]
      by_cases hs : s = []
      · simp [actionCounted, h, truthy, hs]
      · simp [actionCounted, h, truthy, hs]
  · exact fun ctxs => runTurns_iteration ctxs

/-- Witness for C3 at a record with a non-empty string action. -/
theorem C3_witness :
    (update_state (initial_state []) [(str "action", JVal.jstr (str "a"))]).total_actions
      = (initial_state []).total_actions + 1
    ∧ (update_state (initial_state []) [(str "action", JVal.jnull)]).total_actions
      = (initial_state []).total_actions :=
  ⟨((C3_state_update_counters.1 [(str "action", JVal.jstr (str "a"))]
      (initial_state [])).2.2.2.2.2 (str "a") rfl).mpr (by decide),
   (C3_state_update_counters.1 [(str "action", JVal.jnull)]
      (initial_state [])).2.2.2.2.1 rfl⟩

/-- C5: the bounded goal/achievement history.  If the sequences respect
the bound before a state update they respect it after; and whenever a
turn appends (truthy `next_goal` / `reflection`), the new sequence is a
suffix of the old sequence extended by the new element — so the oldest
entries are evicted first and chronological order is preserved — and
its length is `min (old + 1) 10`. -/
theorem C5_bounded_history :
    ∀ (st : AgentState) (rd : Rec),
      (st.goals.length ≤ 10 → (update_state st rd).goals.length ≤ 10)
      ∧ (st.achievements.length ≤ 10 →
          (update_state st rd).achievements.length ≤ 10)
      ∧ (∀ v, List.lookup (str "next_goal") rd = some v → truthy v = true →
          (update_state st rd).goals.IsSuffix (st.goals ++ [v])
          ∧ (update_state st rd).goals.length = min (st.goals.length + 1) 10)
      ∧ (∀ v, List.lookup (str "reflection") rd = some v → truthy v = true →
          (update_state st rd).achievements.IsSuffix (st.achievements ++ [v])
          ∧ (update_state st rd).achievements.length
              = min (st.achievements.length + 1) 10) := by
  intro st rd
  refine ⟨?_, ?_, ?_, ?_⟩
  · intro hlen
    simp only [update_state, apply_reflection_goals]
    cases hl : List.lookup (str "next_goal") rd with
    | none =>
      rw [apply_goal_goals_id _ _ (fun v hv => by rw [hl] at hv; cases hv)]
      simpa using hlen
    | some v =>
      by_cases ht : truthy v = true
      · rw [apply_goal_goals_append _ _ v hl ht, cap10_length]
        exact Nat.min_le_right _ _
      · rw [apply_goal_goals_id _ _
          (fun w hw => by rw [hl] at hw; cases hw; simpa using ht)]
        simpa using hlen
  · intro hlen
    simp only [update_state]
    cases hl : List.lookup (str "reflection") rd with
    | none =>
      rw [apply_reflection_achievements_id _ _ (fun v hv => by rw [hl] at hv; cases hv)]
      simpa using hlen
    | some v =>
      by_cases ht : truthy v = true
      · rw [apply_reflection_achievements_append _ _ v hl ht, cap10_length]
        exact Nat.min_le_right _ _
      · rw [apply_reflection_achievements_id _ _
          (fun w hw => by rw [hl] at hw; cases hw; simpa using ht)]
        simpa using hlen
  · intro v hl ht
    have hg : (update_state st rd).goals = cap10 (st.goals ++ [v]) := by
      simp only [update_state, apply_reflection_goals]
      rw [apply_goal_goals_append _ _ v hl ht]
      simp
    rw [hg]
    constructor
    · exact cap10_suffix _
    · rw [cap10_length]
      simp
  · intro v hl ht
    have hg : (update_state st rd).achievements = cap10 (st.achievements ++ [v]) := by
      simp only [update_state]
      rw [apply_reflection_achievements_append _ _ v hl ht]
      simp
    rw [hg]
    constructor
    · exact cap10_suffix _
    · rw [cap10_length]
      simp

/-- Witness for C5: a full history of ten goals receives an eleventh;
the oldest is evicted. -/
theorem C5_witness :
    (update_state (initial_state [])
        [(str "next_goal", JVal.jstr (str "g"))]).goals.length ≤ 10
    ∧ ((update_state (initial_state [])
          [(str "next_goal", JVal.jstr (str "g"))]).goals.IsSuffix
        ((initial_state []).goals ++ [JVal.jstr (str "g")])
        ∧ (update_state (initial_state [])
            [(str "next_goal", JVal.jstr (str "g"))]).goals.length
            = min ((initial_state []).goals.length + 1) 10) :=
  ⟨(C5_bounded_history (initial_state [])
      [(str "next_goal", JVal.jstr (str "g"))]).1 (by decide),
   (C5_bounded_history (initial_state [])
      [(str "next_goal", JVal.jstr (str "g"))]).2.2.1
      (JVal.jstr (str "g")) rfl (by decide)⟩

/-- C2: on a turn whose backend call fails (timeout or any raised
error), exactly an `ITERATION_START`, a `PROMPT_GENERATED` and an
`ERROR` entry are appended (all stamped with the unchanged iteration
value), the state is exactly the pre-turn state, and the turn returns
`False`, which makes the run loop stop at once (no retry). -/
theorem C2_backend_failure_turn :
    ∀ (ctx : TurnCtx) (st : AgentState) (diary : List DiaryEntry),
      templateOk ctx.template = true →
      (ctx.backend = .timeout ∨ ∃ m, ctx.backend = .err m) →
      (∃ es, run_iteration ctx st diary =
          { outcome := .normal (.jbool false), state := st, diary := diary ++ es }
        ∧ es.map DiaryEntry.phase =
            [str "ITERATION_START", str "PROMPT_GENERATED", str "ERROR"]
        ∧ es.map DiaryEntry.iteration = [st.iteration, st.iteration, st.iteration])
      ∧ ∀ (rest : List LoopEvent) (count : Nat) (maxIter : Option Nat),
          (runLoop (.turn ctx :: rest) count maxIter st diary).2.2
            = .agentStop := by
  intro ctx st diary h hb
  obtain ⟨es, heq, hph, hit⟩ := run_iteration_backend_fail ctx st diary h hb
  refine ⟨⟨es, heq, hph, hit⟩, ?_⟩
  intro rest count maxIter
  simp only [runLoop]
  rw [heq]
  simp [truthy]

/-- An always-rendering template and a timing-out backend, for the C2
witness. -/
def ctxTimeout : TurnCtx :=
  { loads := fun _ => none, dumps := fun _ => [],
    template := [TPiece.lit (str "hi")], timestamp := [],
    lifeName := none, mySpace := [], backend := .timeout }

/-- The fresh state used by the concrete scenarios. -/
def st0 : AgentState := initial_state []

/-- Witness for C2 at a concrete timing-out turn. -/
theorem C2_witness :
    templateOk ctxTimeout.template = true
    ∧ (ctxTimeout.backend = .timeout ∨ ∃ m, ctxTimeout.backend = .err m)
    ∧ ((∃ es, run_iteration ctxTimeout st0 [] =
          { outcome := .normal (.jbool false), state := st0, diary := [] ++ es }
        ∧ es.map DiaryEntry.phase =
            [str "ITERATION_START", str "PROMPT_GENERATED", str "ERROR"]
        ∧ es.map DiaryEntry.iteration = [st0.iteration, st0.iteration, st0.iteration])
      ∧ ∀ (rest : List LoopEvent) (count : Nat) (maxIter : Option Nat),
          (runLoop (.turn ctxTimeout :: rest) count maxIter st0 []).2.2
            = .agentStop) :=
  ⟨rfl, Or.inl rfl, C2_backend_failure_turn ctxTimeout st0 [] rfl (Or.inl rfl)⟩

/-- An always-rendering template with a backend that answers `"x"`, for
the C6 scenario (the parse then falls back to the sentinel record). -/
def ctxOkW : TurnCtx :=
  { loads := fun _ => none, dumps := fun _ => [],
    template := [TPiece.lit (str "hi")], timestamp := [],
    lifeName := none, mySpace := [], backend := .ok (str "x") }

/-- C6 counterexample: in a concrete completed turn started at iteration
0, the first seven diary entries are stamped 0 but `ITERATION_END` is
stamped 1 — it is written after the increment — so not all entries of
the turn carry the same iteration value. -/
theorem C6_counterexample :
    (run_iteration ctxOkW st0 []).diary.map DiaryEntry.iteration
      = [0, 0, 0, 0, 0, 0, 0, 1]
    ∧ ((run_iteration ctxOkW st0 []).diary.head?.map DiaryEntry.iteration
        = some 0)
    ∧ ((run_iteration ctxOkW st0 []).diary.getLast?.map DiaryEntry.iteration
        = some 1)
    ∧ (0 : Nat) ≠ 1 :=
  ⟨by rfl, by rfl, by rfl, by decide⟩

/-- C6 amended: within a completed turn the entries from
`ITERATION_START` through `NEXT_GOAL` are stamped with the pre-increment
iteration value, while `ITERATION_END` — written after the state update
— is stamped with the post-increment value; its summary text references
the pre-increment number, and it carries the parsed continue flag,
which defaults to true when the `continue` key is absent. -/
theorem C6_iteration_stamps :
    ∀ (ctx : TurnCtx) (st : AgentState) (diary : List DiaryEntry)
      (resp : List Char),
      templateOk ctx.template = true → ctx.backend = .ok resp →
      ∃ es, run_iteration ctx st diary =
          { outcome := .normal (jget (extract_json_from_response ctx.loads resp)
              (str "continue") (.jbool true)),
            state := update_state st (extract_json_from_response ctx.loads resp),
            diary := diary ++ es }
        ∧ es.map DiaryEntry.phase =
            [str "ITERATION_START", str "PROMPT_GENERATED",
             str "RESPONSE_RECEIVED", str "THINKING", str "ACTION",
             str "REFLECTION", str "NEXT_GOAL", str "ITERATION_END"]
        ∧ es.map DiaryEntry.iteration =
            [st.iteration, st.iteration, st.iteration, st.iteration,
             st.iteration, st.iteration, st.iteration, st.iteration + 1]
        ∧ es.getLast?.map DiaryEntry.fields =
            some [(str "summary",
                    .jstr (str "第 " ++ natChars st.iteration ++ str " 轮结束")),
                  (str "will_continue",
                    jget (extract_json_from_response ctx.loads resp)
                      (str "continue") (.jbool true))]
        ∧ (List.lookup (str "continue") (extract_json_from_response ctx.loads resp)
              = none →
            jget (extract_json_from_response ctx.loads resp)
              (str "continue") (.jbool true) = .jbool true) := by
  intro ctx st diary resp h hb
  obtain ⟨es, heq, hph, hit, hlast⟩ := run_iteration_ok_case ctx st diary resp h hb
  exact ⟨es, heq, hph, hit, hlast, fun hnone => by simp [jget, hnone]⟩

/-- Witness for C6 at the concrete completed turn of the scenario. -/
theorem C6_witness :
    templateOk ctxOkW.template = true
    ∧ ctxOkW.backend = .ok (str "x")
    ∧ ∃ es, run_iteration ctxOkW st0 [] =
          { outcome := .normal (jget (extract_json_from_response ctxOkW.loads
              (str "x")) (str "continue") (.jbool true)),
            state := update_state st0 (extract_json_from_response ctxOkW.loads
              (str "x")),
            diary := [] ++ es }
        ∧ es.map DiaryEntry.phase =
            [str "ITERATION_START", str "PROMPT_GENERATED",
             str "RESPONSE_RECEIVED", str "THINKING", str "ACTION",
             str "REFLECTION", str "NEXT_GOAL", str "ITERATION_END"]
        ∧ es.map DiaryEntry.iteration =
            [st0.iteration, st0.iteration, st0.iteration, st0.iteration,
             st0.iteration, st0.iteration, st0.iteration, st0.iteration + 1]
        ∧ es.getLast?.map DiaryEntry.fields =
            some [(str "summary",
                    .jstr (str "第 " ++ natChars st0.iteration ++ str " 轮结束")),
                  (str "will_continue",
                    jget (extract_json_from_response ctxOkW.loads (str "x"))
                      (str "continue") (.jbool true))]
        ∧ (List.lookup (str "continue") (extract_json_from_response ctxOkW.loads
              (str "x")) = none →
            jget (extract_json_from_response ctxOkW.loads (str "x"))
              (str "continue") (.jbool true) = .jbool true) :=
  ⟨rfl, rfl, C6_iteration_stamps ctxOkW st0 [] (str "x") rfl rfl⟩

/-- A template referencing a placeholder with no corresponding value,
with a healthy backend, for the C9 scenario. -/
def ctxBadW : TurnCtx :=
  { loads := fun _ => none, dumps := fun _ => [],
    template := [TPiece.hole (str "bad_key")], timestamp := [],
    lifeName := none, mySpace := [], backend := .ok (str "x") }

/-- C9 counterexample: with a template referencing the unknown
placeholder `bad_key`, the turn does **not** complete on the built-in
default template — the exception escapes `run_iteration` after only the
`ITERATION_START` entry, and the run loop appends `ERROR` and halts. -/
theorem C9_counterexample :
    (run_iteration ctxBadW st0 []).outcome = IterOutcome.raised (str "bad_key")
    ∧ ((run_iteration ctxBadW st0 []).diary.map DiaryEntry.phase
        = [str "ITERATION_START"])
    ∧ (runAgent [LoopEvent.turn ctxBadW] none st0 []).2.2
        = StopCause.internalError
    ∧ ((runAgent [LoopEvent.turn ctxBadW] none st0 []).2.1.map DiaryEntry.phase
        = [str "SYSTEM_START", str "ITERATION_START", str "ERROR"]) :=
  ⟨by rfl, by rfl, by rfl, by rfl⟩

/-- C9 amended: when the configured template references a placeholder
with no corresponding value, prompt construction raises; the exception
escapes `run_iteration` (the call sits outside its `try`), so the turn
does not complete and no fallback to the built-in default template
happens — the run loop's generic handler appends an `ERROR` entry and
halts the whole run. -/
theorem C9_template_error_halts_run :
    ∀ (ctx : TurnCtx) (st : AgentState) (diary : List DiaryEntry),
      templateOk ctx.template = false →
      (∃ k, (run_iteration ctx st diary).outcome = .raised k)
      ∧ (run_iteration ctx st diary).state = st
      ∧ ((run_iteration ctx st diary).diary.map DiaryEntry.phase
          = diary.map DiaryEntry.phase ++ [str "ITERATION_START"])
      ∧ ∀ (rest : List LoopEvent) (count : Nat) (maxIter : Option Nat),
          (runLoop (.turn ctx :: rest) count maxIter st diary).2.2
              = .internalError
          ∧ ((runLoop (.turn ctx :: rest) count maxIter st diary).2.1.getLast?.map
                DiaryEntry.phase = some (str "ERROR")) := by
  intro ctx st diary h
  obtain ⟨k, heq⟩ := run_iteration_raised_case ctx st diary h
  refine ⟨⟨k, by rw [heq]⟩, by rw [heq], by rw [heq]; simp, ?_⟩
  intro rest count maxIter
  constructor
  · simp only [runLoop]
    rw [heq]
  · simp only [runLoop]
    rw [heq]
    simp [write_diary]

/-- Witness for C9 at the concrete bad template. -/
theorem C9_witness :
    templateOk ctxBadW.template = false
    ∧ ((∃ k, (run_iteration ctxBadW st0 []).outcome = .raised k)
      ∧ (run_iteration ctxBadW st0 []).state = st0
      ∧ ((run_iteration ctxBadW st0 []).diary.map DiaryEntry.phase
          = List.map DiaryEntry.phase [] ++ [str "ITERATION_START"])
      ∧ ∀ (rest : List LoopEvent) (count : Nat) (maxIter : Option Nat),
          (runLoop (.turn ctxBadW :: rest) count maxIter st0 []).2.2
              = .internalError
          ∧ ((runLoop (.turn ctxBadW :: rest) count maxIter st0 []).2.1.getLast?.map
                DiaryEntry.phase = some (str "ERROR"))) :=
  ⟨rfl, C9_template_error_halts_run ctxBadW st0 [] rfl⟩

/-- A concrete registry whose only life is also the current one. -/
def regAlpha : RegistryState :=
  { lives := [str "alpha"], currentLife := some (str "alpha"),
    storage := [str "alpha"] }

/-- C7 counterexample: deleting the **current** life without
confirmation fails with `ConfirmationRequiredError`, not with
`CurrentLifeProtectedError` — the confirmation check runs first — so
"delete of the current life always fails with CurrentLifeProtectedError"
is false as stated (and symmetrically an unknown name without
confirmation also reports the confirmation error). -/
theorem C7_counterexample :
    delete_life regAlpha (str "alpha") false
      = (regAlpha, some RegErr.confirmationRequired)
    ∧ delete_life regAlpha (str "ghost") false
      = (regAlpha, some RegErr.confirmationRequired)
    ∧ RegErr.confirmationRequired ≠ RegErr.currentLifeProtected
    ∧ RegErr.confirmationRequired ≠ RegErr.notFound := by
  refine ⟨by decide, by decide, by decide, by decide⟩

/-- C7 amended: the three failure checks of `delete_life` run in a fixed
order — confirmation, then index membership, then current-life
protection.  Without confirmation the call always fails with
`ConfirmationRequiredError`; with confirmation an unknown name fails
with `NotFoundError`; with confirmation a known name equal to the
current life fails with `CurrentLifeProtectedError`; and in every
failure case neither the life's storage nor its index entry is
removed. -/
theorem C7_delete_checks :
    ∀ (m : RegistryState) (name : List Char) (confirm : Bool),
      (confirm = false →
        delete_life m name confirm = (m, some .confirmationRequired))
      ∧ (confirm = true → m.lives.contains name = false →
        delete_life m name confirm = (m, some .notFound))
      ∧ (confirm = true → m.lives.contains name = true →
          m.currentLife = some name →
        delete_life m name confirm = (m, some .currentLifeProtected))
      ∧ (∀ e, (delete_life m name confirm).2 = some e →
          (delete_life m name confirm).1 = m) := by
  intro m name confirm
  refine ⟨?_, ?_, ?_, ?_⟩
  · intro h
    unfold delete_life
    rw [if_pos h]
  · intro h hn
    unfold delete_life
    rw [if_neg (by simp [h]), if_pos hn]
  · intro h hn hc
    unfold delete_life
    rw [if_neg (by simp [h]), if_neg (by rw [hn]; simp), if_pos hc]
  · intro e he
    unfold delete_life at he ⊢
    by_cases h1 : confirm = false
    · rw [if_pos h1]
    · rw [if_neg h1] at he ⊢
      by_cases h2 : m.lives.contains name = false
      · rw [if_pos h2]
      · rw [if_neg h2] at he ⊢
        by_cases h3 : m.currentLife = some name
        · rw [if_pos h3]
        · rw [if_neg h3] at he
          exact absurd he (by simp)

/-- Witness for C7: the protected-current-life failure path on the
concrete registry, with confirmation supplied. -/
theorem C7_witness :
    delete_life regAlpha (str "alpha") true
      = (regAlpha, some RegErr.currentLifeProtected)
    ∧ delete_life regAlpha (str "ghost") true
      = (regAlpha, some RegErr.notFound) :=
  ⟨(C7_delete_checks regAlpha (str "alpha") true).2.2.1 rfl (by decide) rfl,
   (C7_delete_checks regAlpha (str "ghost") true).2.1 rfl (by decide)⟩

/-- C4 counterexample: while `_set_current_life` repoints an existing
symlink, a concurrent reader can observe the intermediate state in which
the pointer has been unlinked but the new symlink does not yet exist —
the pointer resolves to nothing, so the switch is not atomic. -/
theorem C4_counterexample :
    ∃ i, 0 < i
      ∧ i + 1 < (setCurrentLifeLinkTrace (.symlinkTo (str "life_001"))
          (str "life_002")).length
      ∧ (setCurrentLifeLinkTrace (.symlinkTo (str "life_001"))
          (str "life_002")).get? i = some .absent
      ∧ resolvesToSome .absent = false :=
  ⟨1, by decide, by decide, by rfl, by rfl⟩

/-- C4 amended: `_set_current_life` (reached from both `create_life` and
`switch_to_life`) ends with the pointer a symlink to the target, but it
is not atomic: whenever the pointer initially exists (as a symlink or as
a plain directory that is renamed aside), the old link is removed
**before** the new one is created, so there is an intermediate,
non-final observation point at which the pointer resolves to nothing. -/
theorem C4_switch_not_atomic :
    ∀ (init : LinkState) (target : List Char),
      (setCurrentLifeLinkTrace init target).getLast? = some (.symlinkTo target)
      ∧ (init ≠ .absent →
          ∃ i, 0 < i
            ∧ i + 1 < (setCurrentLifeLinkTrace init target).length
            ∧ (setCurrentLifeLinkTrace init target).get? i = some .absent) := by
  intro init target
  cases init with
  | absent => exact ⟨rfl, fun h => absurd rfl h⟩
  | symlinkTo t =>
    exact ⟨rfl, fun _ => ⟨1, by decide, by simp [setCurrentLifeLinkTrace], rfl⟩⟩
  | realDir =>
    exact ⟨rfl, fun _ => ⟨1, by decide, by simp [setCurrentLifeLinkTrace], rfl⟩⟩

/-- Witness for C4 at a concrete switch from one life to another. -/
theorem C4_witness :
    LinkState.symlinkTo (str "life_001") ≠ LinkState.absent
    ∧ ((setCurrentLifeLinkTrace (.symlinkTo (str "life_001"))
          (str "life_002")).getLast? = some (.symlinkTo (str "life_002"))
      ∧ (LinkState.symlinkTo (str "life_001") ≠ .absent →
          ∃ i, 0 < i
            ∧ i + 1 < (setCurrentLifeLinkTrace (.symlinkTo (str "life_001"))
                (str "life_002")).length
            ∧ (setCurrentLifeLinkTrace (.symlinkTo (str "life_001"))
                (str "life_002")).get? i = some .absent)) :=
  ⟨by decide,
   C4_switch_not_atomic (.symlinkTo (str "life_001")) (str "life_002")⟩

/-- The diary phases a turn can write (source lines 223–343). -/
def turnPhases : List (List Char) :=
  [str "ITERATION_START", str "PROMPT_GENERATED", str "RESPONSE_RECEIVED",
   str "THINKING", str "ACTION", str "REFLECTION", str "NEXT_GOAL",
   str "ITERATION_END", str "ERROR"]

lemma run_iteration_turn_phases (ctx : TurnCtx) (st : AgentState)
    (diary : List DiaryEntry) :
    ∃ es, (run_iteration ctx st diary).diary = diary ++ es
      ∧ ∀ e ∈ es, e.phase ∈ turnPhases := by
  by_cases htp : templateOk ctx.template = true
  · cases hbk : ctx.backend with
    | ok resp =>
      obtain ⟨es, heq, hph, _, _⟩ := run_iteration_ok_case ctx st diary resp htp hbk
      refine ⟨es, by rw [heq], ?_⟩
      intro e he
      have hm : e.phase ∈ es.map DiaryEntry.phase := List.mem_map_of_mem _ he
      rw [hph] at hm
      simp only [List.mem_cons, List.not_mem_nil, or_false] at hm
      rcases hm with h|h|h|h|h|h|h|h <;> rw [h] <;> decide
    | timeout =>
      obtain ⟨es, heq, hph, _⟩ :=
        run_iteration_backend_fail ctx st diary htp (Or.inl hbk)
      refine ⟨es, by rw [heq], ?_⟩
      intro e he
      have hm : e.phase ∈ es.map DiaryEntry.phase := List.mem_map_of_mem _ he
      rw [hph] at hm
      simp only [List.mem_cons, List.not_mem_nil, or_false] at hm
      rcases hm with h|h|h <;> rw [h] <;> decide
    | err m =>
      obtain ⟨es, heq, hph, _⟩ :=
        run_iteration_backend_fail ctx st diary htp (Or.inr ⟨m, hbk⟩)
      refine ⟨es, by rw [heq], ?_⟩
      intro e he
      have hm : e.phase ∈ es.map DiaryEntry.phase := List.mem_map_of_mem _ he
      rw [hph] at hm
      simp only [List.mem_cons, List.not_mem_nil, or_false] at hm
      rcases hm with h|h|h <;> rw [h] <;> decide
  · have h2 : templateOk ctx.template = false := by simpa using htp
    obtain ⟨k, heq⟩ := run_iteration_raised_case ctx st diary h2
    refine ⟨_, by rw [heq], ?_⟩
    intro e he
    simp only [List.mem_singleton] at he
    rw [he]
    show str "ITERATION_START" ∈ turnPhases
    decide

lemma turnPhases_not_system (p : List Char) (h : p ∈ turnPhases) :
    (p == str "SYSTEM_START") = false ∧ (p == str "SYSTEM_STOP") = false := by
  simp only [turnPhases, List.mem_cons, List.not_mem_nil, or_false] at h
  rcases h with h|h|h|h|h|h|h|h|h <;> rw [h] <;> exact ⟨by decide, by decide⟩

lemma runLoop_trace :
    ∀ (events : List LoopEvent) (count : Nat) (maxIter : Option Nat)
      (st : AgentState) (diary : List DiaryEntry),
      (∀ pes, LoopEvent.interrupt pes ∈ events → ∀ e ∈ pes,
        (e.phase == str "SYSTEM_START") = false
        ∧ (e.phase == str "SYSTEM_STOP") = false) →
      ∃ suf, (runLoop events count maxIter st diary).2.1 = diary ++ suf
        ∧ suf.countP (fun e => e.phase == str "SYSTEM_START") = 0
        ∧ suf.countP (fun e => e.phase == str "SYSTEM_STOP")
            = (if (runLoop events count maxIter st diary).2.2 = .interrupted
               then 1 else 0)
        ∧ ((runLoop events count maxIter st diary).2.2 = .internalError →
            suf.getLast?.map DiaryEntry.phase = some (str "ERROR")) := by
  intro events
  induction events with
  | nil =>
    intro count maxIter st diary _
    exact ⟨[], by simp [runLoop], by simp, by simp [runLoop], by simp [runLoop]⟩
  | cons ev rest ih =>
    intro count maxIter st diary hpart
    cases ev with
    | interrupt pes =>
      have heqrun : runLoop (.interrupt pes :: rest) count maxIter st diary
          = (st, write_diary st (diary ++ pes) (str "SYSTEM_STOP")
              [(str "summary", .jstr (str "用户中断"))], .interrupted) := rfl
      have hpes := hpart pes (List.mem_cons_self _ _)
      refine ⟨pes ++ [⟨str "SYSTEM_STOP", st.iteration,
        [(str "summary", .jstr (str "用户中断"))]⟩], ?_, ?_, ?_, ?_⟩
      · rw [heqrun]
        simp [write_diary]
      · rw [List.countP_append]
        have h0 : pes.countP (fun e => e.phase == str "SYSTEM_START") = 0 := by
          rw [List.countP_eq_zero]
          intro a ha
          simp [(hpes a ha).1]
        rw [h0]
        rfl
      · rw [heqrun, List.countP_append]
        have h0 : pes.countP (fun e => e.phase == str "SYSTEM_STOP") = 0 := by
          rw [List.countP_eq_zero]
          intro a ha
          simp [(hpes a ha).2]
        rw [h0]
        rfl
      · rw [heqrun]
        intro h
        simp at h
    | turn ctx =>
      obtain ⟨es, hes, hphases⟩ := run_iteration_turn_phases ctx st diary
      have hes0 : es.countP (fun e => e.phase == str "SYSTEM_START") = 0 := by
        rw [List.countP_eq_zero]
        intro a ha
        simp [(turnPhases_not_system a.phase (hphases a ha)).1]
      have hes1 : es.countP (fun e => e.phase == str "SYSTEM_STOP") = 0 := by
        rw [List.countP_eq_zero]
        intro a ha
        simp [(turnPhases_not_system a.phase (hphases a ha)).2]
      cases hout : (run_iteration ctx st diary).outcome with
      | raised key =>
        have heqrun : runLoop (.turn ctx :: rest) count maxIter st diary
            = ((run_iteration ctx st diary).state,
               write_diary (run_iteration ctx st diary).state
                 (run_iteration ctx st diary).diary (str "ERROR")
                 [(str "summary", .jstr (str "未预期错误: " ++ key))],
               .internalError) := by
          simp only [runLoop]
          rw [hout]
        refine ⟨es ++ [⟨str "ERROR",
            (run_iteration ctx st diary).state.iteration,
            [(str "summary", .jstr (str "未预期错误: " ++ key))]⟩],
          ?_, ?_, ?_, ?_⟩
        · rw [heqrun]
          simp [write_diary, hes]
        · rw [List.countP_append, hes0]
          simp only [List.countP_cons]
          rfl
        · rw [heqrun, List.countP_append, hes1]
          simp only [List.countP_cons]
          rfl
        · intro _
          rw [List.getLast?_append_of_ne_nil _ (by simp)]
          rfl
      | normal sc =>
        by_cases hsc : truthy sc = false
        · have heqrun : runLoop (.turn ctx :: rest) count maxIter st diary
              = ((run_iteration ctx st diary).state,
                 (run_iteration ctx st diary).diary, .agentStop) := by
            simp only [runLoop]
            rw [hout]
            simp [hsc]
          refine ⟨es, ?_, hes0, ?_, ?_⟩
          · rw [heqrun]
            exact hes
          · rw [heqrun, hes1]
            rfl
          · rw [heqrun]
            intro h
            simp at h
        · have hsc2 : truthy sc = true := by simpa using hsc
          by_cases hmax : maxReachedCheck maxIter (count + 1) = true
          · have heqrun : runLoop (.turn ctx :: rest) count maxIter st diary
                = ((run_iteration ctx st diary).state,
                   (run_iteration ctx st diary).diary, .maxReached) := by
              simp only [runLoop]
              rw [hout]
              simp [hsc2, hmax]
            refine ⟨es, ?_, hes0, ?_, ?_⟩
            · rw [heqrun]
              exact hes
            · rw [heqrun, hes1]
              rfl
            · rw [heqrun]
              intro h
              simp at h
          · have hmax2 : maxReachedCheck maxIter (count + 1) = false := by
              simpa using hmax
            have heqrun : runLoop (.turn ctx :: rest) count maxIter st diary
                = runLoop rest (count + 1) maxIter
                    (run_iteration ctx st diary).state
                    (run_iteration ctx st diary).diary := by
              simp only [runLoop]
              rw [hout]
              simp [hsc2, hmax2]
            obtain ⟨suf2, h1, h2, h3, h4⟩ := ih (count + 1) maxIter
              (run_iteration ctx st diary).state
              (run_iteration ctx st diary).diary
              (fun pes hm => hpart pes (List.mem_cons_of_mem _ hm))
            refine ⟨es ++ suf2, ?_, ?_, ?_, ?_⟩
            · rw [heqrun, h1, hes, List.append_assoc]
            · rw [List.countP_append, hes0, h2]
            · rw [heqrun, List.countP_append, hes1, h3]
              simp
            · rw [heqrun]
              intro h
              have h5 := h4 h
              have hne : suf2 ≠ [] := by
                intro hnil
                rw [hnil] at h5
                simp at h5
              rw [List.getLast?_append_of_ne_nil _ hne]
              exact h5

/-- C10: a run appends exactly one `SYSTEM_START` entry (before the
first turn), and appends a `SYSTEM_STOP` entry exactly when it is ended
by a `KeyboardInterrupt`; a run that ends because a turn returned
do-not-continue, because the bound was reached, or because of an
unexpected internal error (whose last appended entry is `ERROR`)
terminates without a `SYSTEM_STOP`.  The hypothesis reflects that a
cut-short turn only ever writes turn phases (`run_iteration_turn_phases`
proves this for complete turns). -/
theorem C10_system_markers :
    ∀ (events : List LoopEvent) (maxIter : Option Nat) (st : AgentState),
      (∀ pes, LoopEvent.interrupt pes ∈ events → ∀ e ∈ pes,
        (e.phase == str "SYSTEM_START") = false
        ∧ (e.phase == str "SYSTEM_STOP") = false) →
      ((runAgent events maxIter st []).2.1.countP
          (fun e => e.phase == str "SYSTEM_START") = 1)
      ∧ ((runAgent events maxIter st []).2.1.countP
          (fun e => e.phase == str "SYSTEM_STOP")
          = (if (runAgent events maxIter st []).2.2 = .interrupted
             then 1 else 0))
      ∧ ((runAgent events maxIter st []).2.2 = .internalError →
          (runAgent events maxIter st []).2.1.getLast?.map DiaryEntry.phase
            = some (str "ERROR")) := by
  intro events maxIter st hpart
  obtain ⟨suf, h1, h2, h3, h4⟩ := runLoop_trace events 0 maxIter st
    (write_diary st [] (str "SYSTEM_START") (systemStartFields maxIter)) hpart
  have hagent : runAgent events maxIter st [] = runLoop events 0 maxIter st
      (write_diary st [] (str "SYSTEM_START") (systemStartFields maxIter)) :=
    rfl
  refine ⟨?_, ?_, ?_⟩
  · rw [hagent, h1, List.countP_append, h2]
    rfl
  · rw [hagent, h1, List.countP_append, h3]
    have h0 : (write_diary st [] (str "SYSTEM_START")
        (systemStartFields maxIter)).countP
        (fun e => e.phase == str "SYSTEM_STOP") = 0 := rfl
    rw [h0, Nat.zero_add]
  · rw [hagent, h1]
    intro h
    have h5 := h4 h
    have hne : suf ≠ [] := by
      intro hnil
      rw [hnil] at h5
      simp at h5
    rw [List.getLast?_append_of_ne_nil _ hne]
    exact h5

/-- Witness for C10: a run interrupted on its first pass appends
`SYSTEM_START` and then `SYSTEM_STOP`. -/
theorem C10_witness :
    (∀ pes, LoopEvent.interrupt pes ∈ [LoopEvent.interrupt []] → ∀ e ∈ pes,
      (e.phase == str "SYSTEM_START") = false
      ∧ (e.phase == str "SYSTEM_STOP") = false)
    ∧ ((runAgent [LoopEvent.interrupt []] none st0 []).2.1.countP
        (fun e => e.phase == str "SYSTEM_START") = 1)
    ∧ ((runAgent [LoopEvent.interrupt []] none st0 []).2.1.countP
        (fun e => e.phase == str "SYSTEM_STOP")
        = (if (runAgent [LoopEvent.interrupt []] none st0 []).2.2 = .interrupted
           then 1 else 0))
    ∧ ((runAgent [LoopEvent.interrupt []] none st0 []).2.2 = .internalError →
        (runAgent [LoopEvent.interrupt []] none st0 []).2.1.getLast?.map
          DiaryEntry.phase = some (str "ERROR")) := by
  have hpart : ∀ pes, LoopEvent.interrupt pes ∈ [LoopEvent.interrupt []] →
      ∀ e ∈ pes, (e.phase == str "SYSTEM_START") = false
        ∧ (e.phase == str "SYSTEM_STOP") = false := by
    intro pes hm e he
    simp at hm
    rw [hm] at he
    simp at he
  have hmain := C10_system_markers [LoopEvent.interrupt []] none st0 hpart
  exact ⟨hpart, hmain.1, hmain.2.1, hmain.2.2⟩
